import Mathlib

/-!
Shallow embedding of the TMP117 temperature-sensor driver (src/src/lib.rs).

Modelling conventions:
- Rust machine integers (`u8`, `u16`) become `Nat`, with field widths enforced
  by `Fin` in bit-field structs and by explicit `% 256` / `% 65536` where the
  Rust code truncates.
- The `bilge` bit-field structs (`Configuration`, `DeviceId`) become ordinary
  Lean structures together with explicit `toU16` (encode) and `ofU16` (decode)
  functions.  `bilge` packs declared fields starting from bit 0, in declaration
  order; the shift amounts below follow that layout exactly.
- `f32` arithmetic in `set_thigh_limit` / `set_tlow_limit` is modelled with
  exact rationals.  For the properties proved here this is faithful: the
  resolution constant `7.8125 / 1000.0` is exactly the dyadic `2 ^ (-7)` in
  IEEE `f32`, the concrete inputs used (±3.125) divide exactly, and the only
  universally quantified facts proved are sign/saturation facts that IEEE
  rounding preserves (a finite negative `f32` divided by a positive constant
  stays ≤ −0.0, and Rust's saturating `as u16` sends both −0.0 and every
  negative value to 0).
- The generic I²C transport (`embedded_hal` `Write` / `WriteRead`) becomes a
  structure of two functions returning `Except E _`.  Each driver operation
  additionally returns the list of bus-write transactions it issued, which in
  the source is the sequence of `i2c.write` calls performed.
-/

namespace Tmp117Driver

/-- `Error<E>` from the source: I²C bus error, invalid input, or wrong device. -/
inductive Error (E : Type) where
  | I2C : E → Error E
  | InvalidInputData : Error E
  | UnsupportedDevice : Error E
  deriving DecidableEq, Repr

/-- `Address(pub u8)`: the 7-bit bus address newtype. -/
structure Address where
  val : Nat
  deriving DecidableEq, Repr

/-- `Add0Connection`: the four possible ADD0 pin strappings. -/
inductive Add0Connection where
  | Ground
  | Vplus
  | Sda
  | Scl
  deriving DecidableEq, Repr

/-- `impl From<Add0Connection> for Address`: the fixed pin-state lookup table. -/
def Address.ofAdd0Connection : Add0Connection → Address
  | .Ground => ⟨0x48⟩
  | .Vplus => ⟨0x49⟩
  | .Sda => ⟨0x4A⟩
  | .Scl => ⟨0x4B⟩

/-- `impl Default for Address`: the ground-strapped address. -/
def Address.default : Address := Address.ofAdd0Connection .Ground

/-- `ConversionMode`, a 2-bit `bilge` enum with `Continuous` as `#[fallback]`. -/
inductive ConversionMode where
  | Continuous
  | Shutdown
  | OneShot
  deriving DecidableEq, Repr

/-- Discriminants assigned by `bilge` in declaration order. -/
def ConversionMode.toBits : ConversionMode → Nat
  | .Continuous => 0
  | .Shutdown => 1
  | .OneShot => 2

/-- `From<u2>` for `ConversionMode`: the unassigned 2-bit pattern 3 decodes to
the `#[fallback]` variant `Continuous`.  Total on `Nat`; callers always pass a
value `< 4`.  -/
def ConversionMode.fromBits : Nat → ConversionMode
  | 0 => .Continuous
  | 1 => .Shutdown
  | 2 => .OneShot
  | _ => .Continuous

/-- `Average`, a 2-bit `bilge` enum with four variants. -/
inductive Average where
  | NoAverage
  | Average8
  | Average32
  | Average64
  deriving DecidableEq, Repr

def Average.toBits : Average → Nat
  | .NoAverage => 0
  | .Average8 => 1
  | .Average32 => 2
  | .Average64 => 3

def Average.fromBits : Nat → Average
  | 0 => .NoAverage
  | 1 => .Average8
  | 2 => .Average32
  | _ => .Average64

/-- `Polarity`, a 1-bit `bilge` enum. -/
inductive Polarity where
  | ActiveLow
  | ActiveHigh
  deriving DecidableEq, Repr

def Polarity.toBits : Polarity → Nat
  | .ActiveLow => 0
  | .ActiveHigh => 1

def Polarity.fromBits : Nat → Polarity
  | 0 => .ActiveLow
  | _ => .ActiveHigh

/-- `AlertSelect`, a 1-bit `bilge` enum. -/
inductive AlertSelect where
  | Alert
  | DataReady
  deriving DecidableEq, Repr

def AlertSelect.toBits : AlertSelect → Nat
  | .Alert => 0
  | .DataReady => 1

def AlertSelect.fromBits : Nat → AlertSelect
  | 0 => .Alert
  | _ => .DataReady

/-- A Rust `bool` occupying one bit of a bit-field. -/
def bitVal (b : Bool) : Nat := if b then 1 else 0

/-- `Configuration`, the 16-bit `bilge` bit-field struct.  Field order is the
declaration order in the source; `bilge` packs the first field at bit 0:
reserved bit 0, soft_reset bit 1, dr_alert bit 2, high_alert bit 3, pol bit 4,
t_na bit 5, avg bits 6–7, conv bits 8–10, mode bits 11–12, eeprom_busy bit 13,
data_ready bit 14, low_alert bit 15. -/
structure Configuration where
  reservedBit : Bool
  soft_reset : Bool
  dr_alert : AlertSelect
  high_alert : Bool
  pol : Polarity
  t_na : AlertSelect
  avg : Average
  conv : Fin 8
  mode : ConversionMode
  eeprom_busy : Bool
  data_ready : Bool
  low_alert : Bool
  deriving DecidableEq, Repr

/-- `u16::from(Configuration)`: pack the fields into a 16-bit word. -/
def Configuration.toU16 (c : Configuration) : Nat :=
  bitVal c.reservedBit + 2 * bitVal c.soft_reset + 4 * c.dr_alert.toBits +
    8 * bitVal c.high_alert + 16 * c.pol.toBits + 32 * c.t_na.toBits +
    64 * c.avg.toBits + 256 * c.conv.val + 2048 * c.mode.toBits +
    8192 * bitVal c.eeprom_busy + 16384 * bitVal c.data_ready +
    32768 * bitVal c.low_alert

/-- `Configuration::from(u16)`: unpack a 16-bit word into the fields. -/
def Configuration.ofU16 (w : Nat) : Configuration where
  reservedBit := w % 2 == 1
  soft_reset := w / 2 % 2 == 1
  dr_alert := AlertSelect.fromBits (w / 4 % 2)
  high_alert := w / 8 % 2 == 1
  pol := Polarity.fromBits (w / 16 % 2)
  t_na := AlertSelect.fromBits (w / 32 % 2)
  avg := Average.fromBits (w / 64 % 4)
  conv := ⟨w / 256 % 8, Nat.mod_lt _ (by omega)⟩
  mode := ConversionMode.fromBits (w / 2048 % 4)
  eeprom_busy := w / 8192 % 2 == 1
  data_ready := w / 16384 % 2 == 1
  low_alert := w / 32768 % 2 == 1

/-- `impl Default for Configuration`: `Self::from(0x0220)`. -/
def Configuration.default : Configuration := Configuration.ofU16 0x0220

lemma bitVal_lt_two (b : Bool) : bitVal b < 2 := by cases b <;> simp [bitVal]

lemma bitVal_beq_one (b : Bool) : (bitVal b == 1) = b := by cases b <;> rfl

lemma alertSelect_toBits_lt (x : AlertSelect) : x.toBits < 2 := by
  cases x <;> simp [AlertSelect.toBits]

lemma alertSelect_fromBits_toBits (x : AlertSelect) :
    AlertSelect.fromBits x.toBits = x := by
  cases x <;> rfl

lemma polarity_toBits_lt (x : Polarity) : x.toBits < 2 := by
  cases x <;> simp [Polarity.toBits]

lemma polarity_fromBits_toBits (x : Polarity) :
    Polarity.fromBits x.toBits = x := by
  cases x <;> rfl

lemma average_toBits_lt (x : Average) : x.toBits < 4 := by
  cases x <;> simp [Average.toBits]

lemma average_fromBits_toBits (x : Average) :
    Average.fromBits x.toBits = x := by
  cases x <;> rfl

lemma conversionMode_toBits_lt (x : ConversionMode) : x.toBits < 4 := by
  cases x <;> simp [ConversionMode.toBits]

lemma conversionMode_fromBits_toBits (x : ConversionMode) :
    ConversionMode.fromBits x.toBits = x := by
  cases x <;> rfl

/-- Every bit-field of the packed word can be recovered by shift-and-mask. -/
lemma pack_extract (b0 b1 b2 b3 b4 b5 a v m b6 b7 b8 : Nat)
    (h0 : b0 < 2) (h1 : b1 < 2) (h2 : b2 < 2) (h3 : b3 < 2) (h4 : b4 < 2)
    (h5 : b5 < 2) (ha : a < 4) (hv : v < 8) (hm : m < 4) (h6 : b6 < 2)
    (h7 : b7 < 2) (h8 : b8 < 2)
    (e : Nat)
    (he : e = b0 + 2 * b1 + 4 * b2 + 8 * b3 + 16 * b4 + 32 * b5 + 64 * a +
      256 * v + 2048 * m + 8192 * b6 + 16384 * b7 + 32768 * b8) :
    e % 2 = b0 ∧ e / 2 % 2 = b1 ∧ e / 4 % 2 = b2 ∧ e / 8 % 2 = b3 ∧
      e / 16 % 2 = b4 ∧ e / 32 % 2 = b5 ∧ e / 64 % 4 = a ∧ e / 256 % 8 = v ∧
      e / 2048 % 4 = m ∧ e / 8192 % 2 = b6 ∧ e / 16384 % 2 = b7 ∧
      e / 32768 % 2 = b8 := by
  subst he
  omega

/-- Decoding a packed configuration word recovers every field. -/
lemma Configuration.ofU16_toU16 (c : Configuration) : ofU16 c.toU16 = c := by
  obtain ⟨r, sr, da, ha, p, tn, av, cv, m, eb, dr, la⟩ := c
  obtain ⟨E0, E1, E2, E3, E4, E5, E6, E7, E8, E9, E10, E11⟩ :=
    pack_extract (bitVal r) (bitVal sr) da.toBits (bitVal ha) p.toBits
      tn.toBits av.toBits cv.val m.toBits (bitVal eb) (bitVal dr) (bitVal la)
      (bitVal_lt_two r) (bitVal_lt_two sr) (alertSelect_toBits_lt da)
      (bitVal_lt_two ha) (polarity_toBits_lt p) (alertSelect_toBits_lt tn)
      (average_toBits_lt av) cv.isLt (conversionMode_toBits_lt m)
      (bitVal_lt_two eb) (bitVal_lt_two dr) (bitVal_lt_two la)
      (Configuration.toU16 ⟨r, sr, da, ha, p, tn, av, cv, m, eb, dr, la⟩)
      rfl
  simp only [ofU16, E0, E1, E2, E3, E4, E5, E6, E7, E8, E9, E10, E11,
    bitVal_beq_one, alertSelect_fromBits_toBits, polarity_fromBits_toBits,
    average_fromBits_toBits, conversionMode_fromBits_toBits]

/-- `DeviceId`, the 16-bit `bilge` bit-field struct: 12-bit identifier at
bits 0–11, 4-bit revision at bits 12–15. -/
structure DeviceId where
  did : Fin 4096
  rev : Fin 16
  deriving DecidableEq, Repr

/-- `DeviceId::from(u16)`. -/
def DeviceId.ofU16 (w : Nat) : DeviceId :=
  ⟨⟨w % 4096, Nat.mod_lt _ (by omega)⟩, ⟨w / 4096 % 16, Nat.mod_lt _ (by omega)⟩⟩

/-- `u16::from(DeviceId)`. -/
def DeviceId.toU16 (d : DeviceId) : Nat := d.did.val + 4096 * d.rev.val

lemma DeviceId.toU16_ofU16 (w : Nat) (hw : w < 65536) :
    (DeviceId.ofU16 w).toU16 = w := by
  simp only [ofU16, toU16]
  omega

/-- The register address constants from `impl Register`. -/
def Register.TEMP_RESULT : Nat := 0x00
def Register.CONFIGURATION : Nat := 0x01
def Register.THIGH_LIMIT : Nat := 0x02
def Register.TLOW_LIMIT : Nat := 0x03
def Register.DEVICE_ID : Nat := 0x0f

/-- `u16::to_be_bytes`: most-significant byte first. -/
def u16_to_be_bytes (w : Nat) : Nat × Nat := (w / 256 % 256, w % 256)

/-- `u16::from_be_bytes`. -/
def u16_from_be_bytes (b : Nat × Nat) : Nat := b.1 * 256 + b.2

/-- `Self::CELSIUS_PER_BIT = 7.8125 / 1000.0`.  Both operands and the exact
quotient `2 ^ (-7)` are representable in `f32`, so the IEEE division is exact
and the rational value coincides with the `f32` value. -/
def CELSIUS_PER_BIT : ℚ := 7.8125 / 1000

/-- `Self::TMP117`, the expected Device ID word. -/
def TMP117_ID : Nat := 0x0117

/-- Rust `as u16` applied to an `f32`: truncate toward zero, saturating, with
every negative value (and −0.0) mapped to 0 and everything at or above the
maximum to 0xFFFF.  Modelled on exact rationals. -/
def f32_as_u16 (q : ℚ) : Nat :=
  if q < 0 then 0 else min 65535 (Int.toNat ⌊q⌋)

/-- The caller-supplied I²C transport: the `embedded_hal` blocking `Write` and
`WriteRead` traits.  `writeRead` models the fixed driver pattern of writing
one register-address byte and reading back exactly 2 bytes. -/
structure I2CBus (E : Type) where
  write : Nat → List Nat → Except E Unit
  writeRead : Nat → List Nat → Except E (Nat × Nat)

/-- `Tmp117<I2C>`: the transport, the resolved bus address and the cached
configuration word. -/
structure Tmp117 (E : Type) where
  i2c : I2CBus E
  address : Address
  config : Configuration

/-- `build_instance`. -/
def Tmp117.build_instance {E : Type} (i2c : I2CBus E) (address : Address)
    (config : Configuration) : Tmp117 E :=
  ⟨i2c, address, config⟩

/-- `Tmp117::new`: default address, default configuration, no bus I/O. -/
def Tmp117.new {E : Type} (i2c : I2CBus E) : Tmp117 E :=
  Tmp117.build_instance i2c Address.default Configuration.default

/-- `Tmp117::new_with_add0_connection`. -/
def Tmp117.new_with_add0_connection {E : Type} (i2c : I2CBus E)
    (connection : Add0Connection) : Tmp117 E :=
  Tmp117.build_instance i2c (Address.ofAdd0Connection connection)
    Configuration.default

/-- `Tmp117::new_with_address`. -/
def Tmp117.new_with_address {E : Type} (i2c : I2CBus E) (address : Address) :
    Tmp117 E :=
  Tmp117.build_instance i2c address Configuration.default

/-- `write_register`: build the 3-byte frame `[register, hi, lo]`, issue one
`i2c.write`, and map a bus failure to `Error::I2C`.  The first component is
the list of bus-write transactions issued (always exactly this one call). -/
def Tmp117.write_register {E : Type} (d : Tmp117 E) (register : Nat)
    (contents : Nat × Nat) : List (Nat × List Nat) × Except (Error E) Unit :=
  let data := [register, contents.1, contents.2]
  ([(d.address.val, data)],
    match d.i2c.write d.address.val data with
    | .error e => .error (.I2C e)
    | .ok _ => .ok ())

/-- `enable`: force conversion mode to Continuous in the cache, then write the
Configuration register.  Returns the mutated handle, the issued bus writes and
the result. -/
def Tmp117.enable {E : Type} (d : Tmp117 E) :
    Tmp117 E × List (Nat × List Nat) × Except (Error E) Unit :=
  let cfg := { d.config with mode := ConversionMode.Continuous }
  let d2 : Tmp117 E := { d with config := cfg }
  (d2, d2.write_register Register.CONFIGURATION (u16_to_be_bytes cfg.toU16))

/-- `disable`: force conversion mode to Shutdown in the cache, then write the
Configuration register. -/
def Tmp117.disable {E : Type} (d : Tmp117 E) :
    Tmp117 E × List (Nat × List Nat) × Except (Error E) Unit :=
  let cfg := { d.config with mode := ConversionMode.Shutdown }
  let d2 : Tmp117 E := { d with config := cfg }
  (d2, d2.write_register Register.CONFIGURATION (u16_to_be_bytes cfg.toU16))

/-- `reset`: set the cached soft-reset bit, snapshot the word to transmit,
clear the cached soft-reset bit again, then write the Configuration
register. -/
def Tmp117.reset {E : Type} (d : Tmp117 E) :
    Tmp117 E × List (Nat × List Nat) × Except (Error E) Unit :=
  let c1 := { d.config with soft_reset := true }
  let contents := u16_to_be_bytes c1.toU16
  let c2 := { c1 with soft_reset := false }
  let d2 : Tmp117 E := { d with config := c2 }
  (d2, d2.write_register Register.CONFIGURATION contents)

/-- `set_thigh_limit`: divide by the resolution constant, cast to `u16`, write
the High Limit register.  Does not touch the cached configuration. -/
def Tmp117.set_thigh_limit {E : Type} (d : Tmp117 E) (limit : ℚ) :
    List (Nat × List Nat) × Except (Error E) Unit :=
  let temp := f32_as_u16 (limit / CELSIUS_PER_BIT)
  d.write_register Register.THIGH_LIMIT (u16_to_be_bytes temp)

/-- `set_tlow_limit`: divide by the resolution constant, cast to `u16`, write
the Low Limit register. -/
def Tmp117.set_tlow_limit {E : Type} (d : Tmp117 E) (limit : ℚ) :
    List (Nat × List Nat) × Except (Error E) Unit :=
  let temp := f32_as_u16 (limit / CELSIUS_PER_BIT)
  d.write_register Register.TLOW_LIMIT (u16_to_be_bytes temp)

/-- `read_register`: one write-then-read transaction (write the single
register-address byte, read back 2 bytes), decoded big-endian. -/
def Tmp117.read_register {E : Type} (d : Tmp117 E) (register : Nat) :
    Except (Error E) Nat :=
  match d.i2c.writeRead d.address.val [register] with
  | .error e => .error (.I2C e)
  | .ok bytes => .ok (u16_from_be_bytes bytes)

/-- `device_id`: read the Device ID register, pass the word through the
`DeviceId` bit-field struct, and convert the struct back to a `u16`. -/
def Tmp117.device_id {E : Type} (d : Tmp117 E) : Except (Error E) Nat :=
  match d.read_register Register.DEVICE_ID with
  | .error e => .error e
  | .ok w => .ok (DeviceId.ofU16 w).toU16

/-- `validate`: build an instance, read the device id once, and reject the
handle unless the id equals the expected constant. -/
def Tmp117.validate {E : Type} (i2c : I2CBus E) (address : Address)
    (config : Configuration) : Except (Error E) (Tmp117 E) :=
  let tmp := Tmp117.build_instance i2c address config
  match tmp.device_id with
  | .error e => .error e
  | .ok id => if id ≠ TMP117_ID then .error .UnsupportedDevice else .ok tmp

/-- `identify`: validated construction at the default address. -/
def Tmp117.identify {E : Type} (i2c : I2CBus E) : Except (Error E) (Tmp117 E) :=
  Tmp117.validate i2c Address.default Configuration.default

/-- `identify_with_add0_connection`. -/
def Tmp117.identify_with_add0_connection {E : Type} (i2c : I2CBus E)
    (connection : Add0Connection) : Except (Error E) (Tmp117 E) :=
  Tmp117.validate i2c (Address.ofAdd0Connection connection)
    Configuration.default

/-- `identify_with_address`. -/
def Tmp117.identify_with_address {E : Type} (i2c : I2CBus E)
    (address : Address) : Except (Error E) (Tmp117 E) :=
  Tmp117.validate i2c address Configuration.default

/-- Claim C4: for every legally constructible Configuration value, packing it
into the 16-bit word and unpacking that word reproduces every field exactly,
and the packing function is injective over all representable field
combinations. -/
theorem configuration_roundtrip_and_injective :
    (∀ c : Configuration, Configuration.ofU16 c.toU16 = c) ∧
      Function.Injective Configuration.toU16 :=
  ⟨Configuration.ofU16_toU16,
    Function.LeftInverse.injective Configuration.ofU16_toU16⟩

/-- Claim C5: decoding the 2-bit conversion-mode field is total and never
fails: 0 decodes to Continuous, 1 to Shutdown, 2 to OneShot, and the only
unassigned 2-bit pattern, 3, decodes to Continuous by the fallback policy. -/
theorem conversion_mode_decode_total :
    ConversionMode.fromBits 0 = ConversionMode.Continuous ∧
      ConversionMode.fromBits 1 = ConversionMode.Shutdown ∧
      ConversionMode.fromBits 2 = ConversionMode.OneShot ∧
      ConversionMode.fromBits 3 = ConversionMode.Continuous := by
  exact ⟨rfl, rfl, rfl, rfl⟩

/-- A stub transport whose reads always reply the two bytes `(hi, lo)` and
whose writes always succeed. -/
def okBus (hi lo : Nat) : I2CBus Unit :=
  ⟨fun _ _ => .ok (), fun _ _ => .ok (hi, lo)⟩

/-- A stub transport whose writes always fail with the bus error `7`. -/
def failBus : I2CBus Nat :=
  ⟨fun _ _ => .error 7, fun _ _ => .error 7⟩

/-- Claim C1 (failing input): the limit-register encoder does not produce
two's-complement counts.  At the failing input −3.125 °C the quotient by the
resolution constant is the signed count −400, whose big-endian two's-complement
bytes would be `[0xFE, 0x70]`, but the `as u16` cast saturates every negative
quotient to 0 and the driver writes the payload `[0x00, 0x00]`.  The positive
direction behaves as specified: 3.125 °C yields `[0x01, 0x90]`. -/
theorem set_limit_saturating_cast_at_failing_input :
    ((-3.125 : ℚ) / CELSIUS_PER_BIT = -400) ∧
      ((Tmp117.new (okBus 0 0)).set_thigh_limit (-3.125)).1 =
        [(0x48, [Register.THIGH_LIMIT, 0x00, 0x00])] ∧
      ((Tmp117.new (okBus 0 0)).set_tlow_limit (-3.125)).1 =
        [(0x48, [Register.TLOW_LIMIT, 0x00, 0x00])] ∧
      ((Tmp117.new (okBus 0 0)).set_thigh_limit 3.125).1 =
        [(0x48, [Register.THIGH_LIMIT, 0x01, 0x90])] ∧
      ((Tmp117.new (okBus 0 0)).set_tlow_limit 3.125).1 =
        [(0x48, [Register.TLOW_LIMIT, 0x01, 0x90])] := by
  have hq : (-3.125 : ℚ) / CELSIUS_PER_BIT = -400 := by
    norm_num [CELSIUS_PER_BIT]
  have hq2 : (3.125 : ℚ) / CELSIUS_PER_BIT = 400 := by
    norm_num [CELSIUS_PER_BIT]
  have hneg : f32_as_u16 ((-3.125 : ℚ) / CELSIUS_PER_BIT) = 0 := by
    rw [hq, f32_as_u16, if_pos (by norm_num)]
  have hpos : f32_as_u16 ((3.125 : ℚ) / CELSIUS_PER_BIT) = 400 := by
    rw [hq2, f32_as_u16, if_neg (by norm_num)]
    norm_num
    rfl
  refine ⟨hq, ?_, ?_, ?_, ?_⟩ <;>
    simp only [Tmp117.set_thigh_limit, Tmp117.set_tlow_limit,
      Tmp117.write_register, hneg, hpos] <;>
    rfl

/-- Claim C2 (counterexample): for the 2-byte reply `[0x91, 0x17]` the decoded
12-bit identifier field is 0x117, yet `device_id` returns the full word 0x9117
— the revision bits do appear in the returned value, refuting the claim. -/
theorem device_id_keeps_revision_bits_counterexample :
    (Tmp117.new (okBus 0x91 0x17)).device_id = Except.ok 0x9117 ∧
      (DeviceId.ofU16 0x9117).did.val = 0x117 ∧ (0x9117 : Nat) ≠ 0x117 :=
  ⟨rfl, rfl, by norm_num⟩

/-- Claim C2 (amended): for every 2-byte reply `[hi, lo]`, `device_id` returns
the entire big-endian word `hi * 256 + lo` unchanged — the `DeviceId` bit-field
struct is decoded and immediately re-encoded, so the revision bits are included
in the returned value. -/
theorem device_id_returns_full_word {E : Type} (bus : I2CBus E) (hi lo : Nat)
    (hh : hi < 256) (hl : lo < 256)
    (hr : ∀ a w, bus.writeRead a w = Except.ok (hi, lo)) :
    (Tmp117.new bus).device_id = Except.ok (hi * 256 + lo) := by
  have hw : hi * 256 + lo < 65536 := by omega
  simp only [Tmp117.device_id, Tmp117.read_register, Tmp117.new,
    Tmp117.build_instance, hr, u16_from_be_bytes, DeviceId.toU16_ofU16 _ hw]

/-- Witness for the amended C2 at the concrete reply `[0x91, 0x17]`. -/
theorem device_id_returns_full_word_witness :
    (Tmp117.new (okBus 0x91 0x17)).device_id =
      Except.ok (0x91 * 256 + 0x17) :=
  device_id_returns_full_word (okBus 0x91 0x17) 0x91 0x17 (by norm_num)
    (by norm_num) (fun _ _ => rfl)

/-- Claim C3 (counterexample): a reply word 0x1117 has decoded 12-bit
identifier exactly 0x117, yet `identify` and both its pin-state and address
variants reject the device, because the code compares the whole 16-bit word
(revision included) against 0x0117.  This refutes the claimed "succeeds
exactly when the decoded 12-bit identifier equals 0x117". -/
theorem identify_rejects_did_match_counterexample :
    (DeviceId.ofU16 0x1117).did.val = 0x117 ∧
      Tmp117.identify (okBus 0x11 0x17) =
        Except.error Error.UnsupportedDevice ∧
      Tmp117.identify_with_add0_connection (okBus 0x11 0x17)
          Add0Connection.Scl =
        Except.error Error.UnsupportedDevice ∧
      Tmp117.identify_with_address (okBus 0x11 0x17) ⟨0x50⟩ =
        Except.error Error.UnsupportedDevice :=
  ⟨rfl, rfl, rfl, rfl⟩

/-- Shared behaviour of `validate` (the common core of `identify`,
`identify_with_add0_connection` and `identify_with_address`) on a transport
whose reads reply `(hi, lo)`: construction succeeds exactly when the full word
matches, and any returned handle reports the expected device id. -/
lemma validate_ok_spec {E : Type} (bus : I2CBus E) (hi lo : Nat)
    (hh : hi < 256) (hl : lo < 256)
    (hr : ∀ a w, bus.writeRead a w = Except.ok (hi, lo))
    (addr : Address) (cfg : Configuration) :
    ((∃ h, Tmp117.validate bus addr cfg = Except.ok h) ↔
        hi * 256 + lo = TMP117_ID) ∧
      (∀ h, Tmp117.validate bus addr cfg = Except.ok h →
        h.device_id = Except.ok TMP117_ID) := by
  have hw : hi * 256 + lo < 65536 := by omega
  have hid : (Tmp117.build_instance bus addr cfg).device_id =
      Except.ok (hi * 256 + lo) := by
    simp only [Tmp117.device_id, Tmp117.read_register, Tmp117.build_instance,
      hr, u16_from_be_bytes, DeviceId.toU16_ofU16 _ hw]
  have hval : Tmp117.validate bus addr cfg =
      if hi * 256 + lo ≠ TMP117_ID then Except.error Error.UnsupportedDevice
      else Except.ok (Tmp117.build_instance bus addr cfg) := by
    simp only [Tmp117.validate, hid]
  refine ⟨⟨?_, ?_⟩, ?_⟩
  · rintro ⟨h, hok⟩
    by_contra hne
    rw [hval, if_pos hne] at hok
    cases hok
  · intro heq
    exact ⟨_, by rw [hval, if_neg (by simp [heq])]⟩
  · intro h hok
    by_cases heq : hi * 256 + lo = TMP117_ID
    · rw [hval, if_neg (by simp [heq])] at hok
      injection hok with hok2
      rw [← hok2, hid, heq]
    · rw [hval, if_pos heq] at hok
      cases hok

/-- Shared behaviour of `validate` on a transport whose reads fail: the bus
error is propagated as `Error::I2C`. -/
lemma validate_error_spec {E : Type} (bus : I2CBus E) (e : E)
    (he : ∀ a w, bus.writeRead a w = Except.error e)
    (addr : Address) (cfg : Configuration) :
    Tmp117.validate bus addr cfg = Except.error (Error.I2C e) := by
  simp only [Tmp117.validate, Tmp117.device_id, Tmp117.read_register,
    Tmp117.build_instance, he]

/-- Claim C3 (amended): `identify` and its pin-state and address variants each
issue one Device ID read and yield a usable handle exactly when the full
16-bit reply word equals 0x0117 (a 12-bit identifier match with a nonzero
revision nibble is rejected); on success the handle's `device_id` returns
0x0117; a reply of 0x0042 therefore yields a failed construction, and a
transport error during the read is propagated as a bus-error result by all
three constructors. -/
theorem identify_exactly_on_expected_word {E : Type} (bus : I2CBus E)
    (hi lo : Nat) (hh : hi < 256) (hl : lo < 256)
    (hr : ∀ a w, bus.writeRead a w = Except.ok (hi, lo)) :
    ((∃ h, Tmp117.identify bus = Except.ok h) ↔ hi * 256 + lo = TMP117_ID) ∧
      (∀ h, Tmp117.identify bus = Except.ok h →
        h.device_id = Except.ok TMP117_ID) ∧
      (∀ conn : Add0Connection,
        ((∃ h, Tmp117.identify_with_add0_connection bus conn = Except.ok h) ↔
            hi * 256 + lo = TMP117_ID) ∧
          ∀ h, Tmp117.identify_with_add0_connection bus conn = Except.ok h →
            h.device_id = Except.ok TMP117_ID) ∧
      (∀ addr : Address,
        ((∃ h, Tmp117.identify_with_address bus addr = Except.ok h) ↔
            hi * 256 + lo = TMP117_ID) ∧
          ∀ h, Tmp117.identify_with_address bus addr = Except.ok h →
            h.device_id = Except.ok TMP117_ID) ∧
      (∀ (bus2 : I2CBus E) (e : E),
        (∀ a w, bus2.writeRead a w = Except.error e) →
        Tmp117.identify bus2 = Except.error (Error.I2C e) ∧
          (∀ conn : Add0Connection,
            Tmp117.identify_with_add0_connection bus2 conn =
              Except.error (Error.I2C e)) ∧
          (∀ addr : Address,
            Tmp117.identify_with_address bus2 addr =
              Except.error (Error.I2C e))) :=
  ⟨(validate_ok_spec bus hi lo hh hl hr Address.default
      Configuration.default).1,
    (validate_ok_spec bus hi lo hh hl hr Address.default
      Configuration.default).2,
    fun conn => validate_ok_spec bus hi lo hh hl hr
      (Address.ofAdd0Connection conn) Configuration.default,
    fun addr => validate_ok_spec bus hi lo hh hl hr addr
      Configuration.default,
    fun bus2 e he =>
      ⟨validate_error_spec bus2 e he Address.default Configuration.default,
        fun conn => validate_error_spec bus2 e he
          (Address.ofAdd0Connection conn) Configuration.default,
        fun addr => validate_error_spec bus2 e he addr
          Configuration.default⟩⟩

/-- Witness for the amended C3 at the concrete reply `[0x01, 0x17]` (word
0x0117): all three constructors produce a handle that reports device id
0x0117. -/
theorem identify_exactly_on_expected_word_witness :
    ((∃ h, Tmp117.identify (okBus 0x01 0x17) = Except.ok h) ↔
        0x01 * 256 + 0x17 = TMP117_ID) ∧
      (∀ h, Tmp117.identify (okBus 0x01 0x17) = Except.ok h →
        h.device_id = Except.ok TMP117_ID) ∧
      (∀ conn : Add0Connection,
        ((∃ h, Tmp117.identify_with_add0_connection (okBus 0x01 0x17) conn =
            Except.ok h) ↔ 0x01 * 256 + 0x17 = TMP117_ID) ∧
          ∀ h, Tmp117.identify_with_add0_connection (okBus 0x01 0x17) conn =
              Except.ok h →
            h.device_id = Except.ok TMP117_ID) ∧
      (∀ addr : Address,
        ((∃ h, Tmp117.identify_with_address (okBus 0x01 0x17) addr =
            Except.ok h) ↔ 0x01 * 256 + 0x17 = TMP117_ID) ∧
          ∀ h, Tmp117.identify_with_address (okBus 0x01 0x17) addr =
              Except.ok h →
            h.device_id = Except.ok TMP117_ID) ∧
      (∀ (bus2 : I2CBus Unit) (e : Unit),
        (∀ a w, bus2.writeRead a w = Except.error e) →
        Tmp117.identify bus2 = Except.error (Error.I2C e) ∧
          (∀ conn : Add0Connection,
            Tmp117.identify_with_add0_connection bus2 conn =
              Except.error (Error.I2C e)) ∧
          (∀ addr : Address,
            Tmp117.identify_with_address bus2 addr =
              Except.error (Error.I2C e))) :=
  identify_exactly_on_expected_word (okBus 0x01 0x17) 0x01 0x17 (by norm_num)
    (by norm_num) (fun _ _ => rfl)

/-- Claim C6: after `reset`, the cached configuration word has the soft-reset
bit cleared and every other field unchanged, even though the transmitted
16-bit payload — the word packed just before the bit was cleared — has the
soft-reset bit set. -/
theorem reset_clears_cached_soft_reset {E : Type} (d : Tmp117 E) :
    d.reset.1.config = { d.config with soft_reset := false } ∧
      d.reset.2.1 = [(d.address.val,
        [Register.CONFIGURATION,
          Configuration.toU16 { d.config with soft_reset := true } / 256 % 256,
          Configuration.toU16 { d.config with soft_reset := true } % 256])] ∧
      (Configuration.ofU16
        (Configuration.toU16 { d.config with soft_reset := true })).soft_reset
        = true :=
  ⟨rfl, rfl, by rw [Configuration.ofU16_toU16]⟩

/-- Claim C7: `enable`, `disable` and `reset` each issue exactly one bus write
of exactly 3 bytes — the Configuration register address 0x01 followed by the
16-bit configuration word most-significant byte first — and `enable` on a
fresh handle writes `[0x01, 0x02, 0x20]`, the default word (whose conversion
mode is already Continuous) at the default address 0x48. -/
theorem config_write_framing {E : Type} (d : Tmp117 E) :
    d.enable.2.1 = [(d.address.val,
        [Register.CONFIGURATION,
          Configuration.toU16 { d.config with mode := ConversionMode.Continuous }
            / 256 % 256,
          Configuration.toU16 { d.config with mode := ConversionMode.Continuous }
            % 256])] ∧
      d.disable.2.1 = [(d.address.val,
        [Register.CONFIGURATION,
          Configuration.toU16 { d.config with mode := ConversionMode.Shutdown }
            / 256 % 256,
          Configuration.toU16 { d.config with mode := ConversionMode.Shutdown }
            % 256])] ∧
      d.reset.2.1 = [(d.address.val,
        [Register.CONFIGURATION,
          Configuration.toU16 { d.config with soft_reset := true } / 256 % 256,
          Configuration.toU16 { d.config with soft_reset := true } % 256])] ∧
      (∀ bus : I2CBus E, (Tmp117.new bus).enable.2.1 =
        [(0x48, [0x01, 0x02, 0x20])]) := by
  refine ⟨rfl, rfl, rfl, fun bus => ?_⟩
  have hc : Configuration.toU16
      { Configuration.default with mode := ConversionMode.Continuous } =
      0x0220 := by decide
  show [(Address.default.val,
    [Register.CONFIGURATION,
      Configuration.toU16
        { Configuration.default with mode := ConversionMode.Continuous }
        / 256 % 256,
      Configuration.toU16
        { Configuration.default with mode := ConversionMode.Continuous }
        % 256])] = [(0x48, [0x01, 0x02, 0x20])]
  rw [hc]
  decide

/-- Claim C8: when the transport write fails, `enable` and `disable` return
the bus error verbatim wrapped as `Error::I2C`, and the cached configuration
has nevertheless already been mutated: Continuous after a failed `enable`,
Shutdown after a failed `disable`. -/
theorem config_write_failure_propagates {E : Type} (d : Tmp117 E) (e : E)
    (hw : ∀ bs, d.i2c.write d.address.val bs = Except.error e) :
    d.enable.2.2 = Except.error (Error.I2C e) ∧
      d.enable.1.config.mode = ConversionMode.Continuous ∧
      d.disable.2.2 = Except.error (Error.I2C e) ∧
      d.disable.1.config.mode = ConversionMode.Shutdown := by
  simp only [Tmp117.enable, Tmp117.disable, Tmp117.write_register, hw]
  exact ⟨trivial, trivial, trivial, trivial⟩

/-- Witness for C8: a transport that always fails with bus error 7. -/
theorem config_write_failure_propagates_witness :
    (Tmp117.new failBus).enable.2.2 = Except.error (Error.I2C 7) ∧
      (Tmp117.new failBus).enable.1.config.mode = ConversionMode.Continuous ∧
      (Tmp117.new failBus).disable.2.2 = Except.error (Error.I2C 7) ∧
      (Tmp117.new failBus).disable.1.config.mode = ConversionMode.Shutdown :=
  config_write_failure_propagates (Tmp117.new failBus) 7 (fun _ => rfl)

/-- Claim C9: the bus address is the fixed pure function of the ADD0 pin state
(Ground→0x48, Vplus→0x49, Sda→0x4A, Scl→0x4B), the default address is the
Ground case, and no configuration-mutating operation changes a handle's
address.  (`set_thigh_limit`, `set_tlow_limit` and the read operations assign
no handle field at all in the source, so only the three config-mutating
operations return an updated handle in this model.) -/
theorem address_pure_and_immutable :
    Address.ofAdd0Connection Add0Connection.Ground = ⟨0x48⟩ ∧
      Address.ofAdd0Connection Add0Connection.Vplus = ⟨0x49⟩ ∧
      Address.ofAdd0Connection Add0Connection.Sda = ⟨0x4A⟩ ∧
      Address.ofAdd0Connection Add0Connection.Scl = ⟨0x4B⟩ ∧
      Address.default = Address.ofAdd0Connection Add0Connection.Ground ∧
      ∀ (E : Type) (d : Tmp117 E),
        d.enable.1.address = d.address ∧ d.disable.1.address = d.address ∧
          d.reset.1.address = d.address :=
  ⟨rfl, rfl, rfl, rfl, rfl, fun _ _ => ⟨rfl, rfl, rfl⟩⟩

/-- Claim C10: for every negative Celsius input the limit setters write the
payload `[0x00, 0x00]`: the raw count comes from Rust's saturating `as u16`
cast of the quotient, which maps every negative value to 0 and every value
above 65535 to 0xFFFF, so negative limits are not encoded in two's
complement. -/
theorem negative_limits_saturate_to_zero {E : Type} (d : Tmp117 E) (q : ℚ)
    (hq : q < 0) :
    (d.set_thigh_limit q).1 =
        [(d.address.val, [Register.THIGH_LIMIT, 0, 0])] ∧
      (d.set_tlow_limit q).1 =
        [(d.address.val, [Register.TLOW_LIMIT, 0, 0])] ∧
      (∀ r : ℚ, r < 0 → f32_as_u16 r = 0) ∧
      (∀ r : ℚ, (65535 : ℚ) < r → f32_as_u16 r = 0xFFFF) := by
  have hpos : (0 : ℚ) < CELSIUS_PER_BIT := by norm_num [CELSIUS_PER_BIT]
  have hneg : q / CELSIUS_PER_BIT < 0 := div_neg_of_neg_of_pos hq hpos
  have hf : f32_as_u16 (q / CELSIUS_PER_BIT) = 0 := by
    rw [f32_as_u16, if_pos hneg]
  refine ⟨?_, ?_, ?_, ?_⟩
  · simp only [Tmp117.set_thigh_limit, Tmp117.write_register, hf]
    rfl
  · simp only [Tmp117.set_tlow_limit, Tmp117.write_register, hf]
    rfl
  · intro r hr
    rw [f32_as_u16, if_pos hr]
  · intro r hr
    have h0 : ¬(r < 0) := by linarith
    have hfl : (65535 : ℤ) ≤ ⌊r⌋ := by
      rw [Int.le_floor]
      push_cast
      linarith
    rw [f32_as_u16, if_neg h0]
    have h1 : 65535 ≤ Int.toNat ⌊r⌋ := by omega
    simpa using min_eq_left h1

/-- Witness for C10 at the concrete negative input −3.125 °C. -/
theorem negative_limits_saturate_to_zero_witness :
    ((Tmp117.new (okBus 0 0)).set_thigh_limit (-3.125)).1 =
        [((Tmp117.new (okBus 0 0)).address.val, [Register.THIGH_LIMIT, 0, 0])] ∧
      ((Tmp117.new (okBus 0 0)).set_tlow_limit (-3.125)).1 =
        [((Tmp117.new (okBus 0 0)).address.val, [Register.TLOW_LIMIT, 0, 0])] ∧
      (∀ r : ℚ, r < 0 → f32_as_u16 r = 0) ∧
      (∀ r : ℚ, (65535 : ℚ) < r → f32_as_u16 r = 0xFFFF) :=
  negative_limits_saturate_to_zero (Tmp117.new (okBus 0 0)) (-3.125)
    (by norm_num)

end Tmp117Driver
